import Mathlib

/-!
Verification development for the VPN Telegram bot
(entitlement reconciliation and payment settlement engine).

Shallow embedding of the relevant code of `src/app/models.py` and
`src/app/handlers.py`.  Timestamps are modelled as `Int` (seconds);
`timedelta(days = d)` becomes `d * 86400`.  Money is modelled in integer
cents (`Numeric(12,2)` columns hold exactly two decimal places, so a cent
count is exact).
-/

namespace VpnBot

/-- One day of `timedelta(days := 1)`, in seconds. -/
def secondsPerDay : Int := 86400

/-- Account row, the fields of `User` in `src/app/models.py` that the
engine reads or writes. -/
structure UserR where
  balance : Int
  referredBy : Option Nat
  subscriptionUntil : Option Int
  deviceQuota : Nat
  extraDevicesUntil : Option Int
  extraDevicesCount : Nat
  deriving Repr, DecidableEq

/-- Tariff row (`Tariff` in `src/app/models.py`): the fields read by
settlement. -/
structure TariffR where
  days : Nat
  maxDevices : Nat
  deriving Repr, DecidableEq

/-- Device row (`Device` in `src/app/models.py`).  `wgClientId` is `none`
both for a NULL column and for an empty string (Python truthiness of
`d.wg_client_id`). -/
structure DeviceR where
  id : Nat
  wgClientId : Option String
  nodeId : Option Nat
  isExtra : Bool
  createdAt : Int
  deriving Repr, DecidableEq

/-- Provisioning node row (`Node` in `src/app/models.py`).  `load` is an
`Int` because the source stores a Python int and guards negativity only at
some call sites. -/
structure NodeR where
  id : Nat
  isActive : Bool
  load : Int
  maxCapacity : Int
  deriving Repr, DecidableEq

/-- Embeds `User.has_base_active` (`src/app/models.py` lines 47-50):
`subscription_until` non-null and strictly later than now. -/
def hasBaseActive (now : Int) (u : UserR) : Bool :=
  match u.subscriptionUntil with
  | none => false
  | some t => now < t

/-- Embeds `User.has_extra_active` (`src/app/models.py` lines 52-55). -/
def hasExtraActive (now : Int) (u : UserR) : Bool :=
  match u.extraDevicesUntil with
  | none => false
  | some t => now < t

/-- Embeds `User.total_quota` (`src/app/models.py` lines 57-60):
`base = self.device_quota or 0` — the base counter is NOT gated on
`has_base_active`; only the extra counter is gated. -/
def total_quota (now : Int) (u : UserR) : Nat :=
  let base := u.deviceQuota
  let extra := if hasExtraActive now u then u.extraDevicesCount else 0
  base + extra

/-- Embeds `_base_quota` (`src/app/handlers.py` lines 56-57):
`int(u.device_quota or 0)`, unconditional on the base window. -/
def base_quota_fn (u : UserR) : Nat :=
  u.deviceQuota

/-- Embeds `_extra_quota` (`src/app/handlers.py` lines 59-60). -/
def extra_quota_fn (now : Int) (u : UserR) : Nat :=
  if hasExtraActive now u then u.extraDevicesCount else 0

/-- Modelled from the spec (section 4.1), for comparison with the code:
`totalQuota(now) = (baseActive ? device_quota : 0) + (addonActive ? addon_count : 0)`. -/
def totalQuotaSpec (now : Int) (u : UserR) : Nat :=
  (if hasBaseActive now u then u.deviceQuota else 0) +
    (if hasExtraActive now u then u.extraDevicesCount else 0)

/-! ## Quota Enforcer (`enforce_user_devices`, `src/app/handlers.py` 250-303)

The two class-wise device lists are the query results
`... order_by(Device.created_at.asc())`; the embedding takes them as list
arguments and returns, per class, the devices kept and the devices deleted.
-/

/-- Outcome of one `enforce_user_devices` run. -/
structure EnforceResult where
  baseKept : List DeviceR
  baseDeleted : List DeviceR
  extraKept : List DeviceR
  extraDeleted : List DeviceR
  deriving Repr, DecidableEq

/-- The base-class block of `enforce_user_devices` (`src/app/handlers.py`
lines 263-282), as a pure function of the flags it branches on:
`if not base_active: delete all; elif len(base_devices) > base_quota:
delete base_devices[base_quota:]`.  Returns `(kept, deleted)`. -/
def trimClassBase (baseActive : Bool) (baseQuota : Nat)
    (devs : List DeviceR) : List DeviceR × List DeviceR :=
  if !baseActive then ([], devs)
  else if devs.length > baseQuota then
    (devs.take baseQuota, devs.drop baseQuota)
  else (devs, [])

/-- The extra-class block of `enforce_user_devices` (`src/app/handlers.py`
lines 284-303): `if extra_active_count <= 0: delete all;
elif len(extra_devices) > extra_active_count: delete
extra_devices[extra_active_count:]`.  Returns `(kept, deleted)`. -/
def trimClassExtra (extraActiveCount : Nat)
    (devs : List DeviceR) : List DeviceR × List DeviceR :=
  if extraActiveCount ≤ 0 then ([], devs)
  else if devs.length > extraActiveCount then
    (devs.take extraActiveCount, devs.drop extraActiveCount)
  else (devs, [])

/-- Embeds `enforce_user_devices` (`src/app/handlers.py` lines 250-303).
`baseDevs` / `extraDevs` are the user's devices of each class in the
query's creation-time ascending order.  The source's local
`base_active = bool(user.subscription_until and user.subscription_until > now)`
is the same expression as `User.has_base_active`, embedded as
`hasBaseActive`; `base_quota = (user.device_quota or 0) if base_active
else 0` and `extra_active_count = (user.extra_devices_count or 0) if
(... > now) else 0` are the two gated quotas. -/
def enforce_user_devices (now : Int) (u : UserR)
    (baseDevs extraDevs : List DeviceR) : EnforceResult :=
  let baseActive : Bool := hasBaseActive now u
  let baseQuota : Nat := if baseActive then u.deviceQuota else 0
  let extraActiveCount : Nat :=
    if hasExtraActive now u then u.extraDevicesCount else 0
  let basePair := trimClassBase baseActive baseQuota baseDevs
  let extraPair := trimClassExtra extraActiveCount extraDevs
  ⟨basePair.1, basePair.2, extraPair.1, extraPair.2⟩

/-- Base quota as the Enforcer computes it (gated on the base window),
`src/app/handlers.py` lines 253-254. -/
def enforcerBaseQuota (now : Int) (u : UserR) : Nat :=
  if hasBaseActive now u then u.deviceQuota else 0

/-- Extra quota as the Enforcer computes it, `src/app/handlers.py`
lines 255-259. -/
def enforcerExtraQuota (now : Int) (u : UserR) : Nat :=
  if hasExtraActive now u then u.extraDevicesCount else 0

/-! ## Payment Settlement Ledger (`_apply_successful_payment`,
`src/app/handlers.py` lines 1829-1873)

The function reads the paying user's row and, in the TARIFF branch of a
referred user, the referrer's row; the embedding takes these two rows (the
referrer as the lookup result for `u.referred_by_user_id`) plus the tariff
lookup, and returns the updated rows.  It returns `none` exactly where the
Python would raise (`t.days` on a missing tariff row, `ref_user.balance`
on a missing referrer row). -/

/-- Payment row (`Payment` in `src/app/models.py`): the fields settlement
reads.  `amountCents` is `amount` in cents. -/
structure PaymentR where
  purpose : String
  amountCents : Nat
  tariffId : Option Nat
  deriving Repr, DecidableEq

/-- Round `n / d` to the nearest integer with ties to the even neighbour —
the behaviour of Python `Decimal.quantize` under the default
`ROUND_HALF_EVEN` context, applied to an exact nonnegative quotient. -/
def roundHalfEvenDiv (n d : Nat) : Nat :=
  let q := n / d
  let r := n % d
  if 2 * r < d then q
  else if d < 2 * r then q + 1
  else if q % 2 = 0 then q else q + 1

/-- Round `n / d` to the nearest integer with ties upward (`ROUND_HALF_UP`
for nonnegative values); used only to state what the spec asserts. -/
def roundHalfUpDiv (n d : Nat) : Nat :=
  let q := n / d
  let r := n % d
  if d ≤ 2 * r then q + 1 else q

/-- The referral bonus the code computes:
`(Decimal(p.amount) * Decimal(percent) / Decimal(100)).quantize(Decimal("0.01"))`
(`src/app/handlers.py` lines 1854-1856), for an amount of `amountCents`
cents that the binary float `p.amount` represents exactly.  In cents:
`amount * percent / 100` currency units is `amountCents * percent / 100`
cents, quantized with the `Decimal` default rounding, half-even. -/
def referralBonusCents (amountCents percent : Nat) : Nat :=
  roundHalfEvenDiv (amountCents * percent) 100

/-- Embeds `_apply_successful_payment` (`src/app/handlers.py` lines 1829-1873).
`getTariff` is `session.get(Tariff, ·)`; `refUser` is the row
`session.get(User, u.referred_by_user_id)` would return.  Result: the
updated `(payer, referrer)` rows, or `none` where the source raises. -/
def applySuccessfulPayment (percent : Nat) (now : Int)
    (getTariff : Nat → Option TariffR) (p : PaymentR) (u : UserR)
    (refUser : Option UserR) : Option (UserR × Option UserR) :=
  if p.purpose = "TARIFF" ∧ p.tariffId.isSome then
    match p.tariffId.bind getTariff with
    | none => none
    | some t =>
      let subUntil0 := u.subscriptionUntil.getD now
      let subUntil1 := if subUntil0 < now then now else subUntil0
      let u1 := { u with
        subscriptionUntil := some (subUntil1 + (t.days : Int) * secondsPerDay),
        deviceQuota := t.maxDevices }
      match u.referredBy with
      | none => some (u1, refUser)
      | some _ =>
        match refUser with
        | none => none
        | some r =>
          let bonus := referralBonusCents p.amountCents percent
          some (u1, some { r with balance := r.balance + (bonus : Int) })
  else if p.purpose = "TOPUP" then
    some ({ u with balance := u.balance + (p.amountCents : Int) }, refUser)
  else if p.purpose = "EXTRA_DEVICE" then
    let cur0 := u.extraDevicesUntil.getD now
    let cur1 := if cur0 < now then now else cur0
    some ({ u with
      extraDevicesUntil := some (cur1 + 30 * secondsPerDay),
      extraDevicesCount := u.extraDevicesCount + 1 }, refUser)
  else
    some (u, refUser)

/-! ## Watcher / sweep observation of one payment

`auto_check_payment` (`src/app/handlers.py` lines 114-151) and
`poll_pending_payments` (lines 1875-1890) both poll the gateway for one
payment; we model the stored row as `status` plus a counter of how many
times `_apply_successful_payment` has run for it.  A sweep works on the
row object it loaded when it selected the pending batch, so its
`status != p.status` comparison uses that snapshot, not the current store.
-/

/-- The stored payment row, instrumented with the number of settlement
applications. -/
structure PayState where
  status : String
  applyCount : Nat
  deriving Repr, DecidableEq

/-- One poll iteration of the per-account watcher `auto_check_payment`
(`src/app/handlers.py` lines 129-151): store the gateway status `gw`
unconditionally and, whenever `gw` is `succeeded`, run
`_apply_successful_payment` — with no comparison against the previously
stored status. -/
def watcherObserve (gw : String) (s : PayState) : PayState :=
  { status := gw,
    applyCount := if gw = "succeeded" then s.applyCount + 1 else s.applyCount }

/-- The per-payment body of the sweep `poll_pending_payments`
(`src/app/handlers.py` lines 1879-1889): `snapshotStatus` is the status of
the row object loaded when the pending batch was selected; only when the
gateway status differs from it does the sweep write the status and, on
`succeeded`, run `_apply_successful_payment`. -/
def sweepObserve (gw snapshotStatus : String) (s : PayState) : PayState :=
  if gw ≠ snapshotStatus then
    { status := gw,
      applyCount := if gw = "succeeded" then s.applyCount + 1 else s.applyCount }
  else s

/-- The interleaving in which the sweep selects a pending payment, the
watcher then polls the gateway (which reports `succeeded`) and commits,
and the sweep finally processes its stale snapshot of the row. -/
def watcherSweepRace : PayState :=
  let s0 : PayState := ⟨"pending", 0⟩
  let snapshot := s0.status
  let s1 := watcherObserve "succeeded" s0
  sweepObserve "succeeded" snapshot s1

/-! ## Tariff purchase flow (`tariff:buy:` branch of `on_callback`,
`src/app/handlers.py` lines 957-1076)

The branch first loads the tariff and rejects a missing or inactive one,
then rejects when the buyer's base subscription is still active — before
`yk_client.create_payment` is reached — and only then calls the gateway
and persists a `Payment` row.  The gateway call is modelled by its result
(`Except Unit GatewayPay`); `gatewayCalled` records whether execution
reached the call at all. -/

/-- What the gateway returns from `create_payment`. -/
structure GatewayPay where
  payId : String
  confirmationUrl : Option String
  deriving Repr, DecidableEq

/-- Why the purchase branch stopped without persisting a payment.
`validationActiveSubscription` is the rejection the spec's error taxonomy
calls `ValidationError`: a base subscription purchase attempted while one
is already active. -/
inductive BuyReject where
  | tariffUnavailable
  | validationActiveSubscription
  | gatewayFailure
  | missingConfirmationUrl
  deriving Repr, DecidableEq

/-- Outcome of the `tariff:buy:` branch: whether the gateway was invoked,
the persisted payment row if any, the buyer's row afterwards, and the
rejection if any. -/
structure BuyResult where
  gatewayCalled : Bool
  payment : Option PaymentR
  user : UserR
  rejected : Option BuyReject
  deriving Repr, DecidableEq

/-- The `tariff:buy:` branch of `on_callback` (`src/app/handlers.py`
lines 957-1016), up to the persistence of the `Payment` row.  `tariff` is
`session.get(Tariff, tariff_id)` together with its `is_active` flag;
`gw` is the result `yk_client.create_payment` would produce if called. -/
def tariffBuy (now : Int) (tariff : Option (TariffR × Bool))
    (tariffId : Nat) (priceCents : Nat) (u : UserR)
    (gw : Except Unit GatewayPay) : BuyResult :=
  match tariff with
  | none =>
    { gatewayCalled := false, payment := none, user := u,
      rejected := some .tariffUnavailable }
  | some (_, isActive) =>
    if !isActive then
      { gatewayCalled := false, payment := none, user := u,
        rejected := some .tariffUnavailable }
    else if hasBaseActive now u then
      { gatewayCalled := false, payment := none, user := u,
        rejected := some .validationActiveSubscription }
    else
      match gw with
      | .error _ =>
        { gatewayCalled := true, payment := none, user := u,
          rejected := some .gatewayFailure }
      | .ok gp =>
        match gp.confirmationUrl with
        | none =>
          { gatewayCalled := true, payment := none, user := u,
            rejected := some .missingConfirmationUrl }
        | some _ =>
          { gatewayCalled := true,
            payment := some { purpose := "TARIFF", amountCents := priceCents,
                              tariffId := some tariffId },
            user := u, rejected := none }

/-! ## User-initiated device deletion (`device:del:` branch of
`on_callback`, `src/app/handlers.py` lines 1331-1381)

When the device has a node reference and an external peer id, the external
`delete_client` call runs first; if it raises, the handler reports the
error and returns with nothing deleted and the load untouched.  Only on
external success (or when there is no node or no peer id) is the local row
deleted; the load decrement `node.load = max(0, node.load - 1)` happens
only in the external-success branch. -/

/-- Result of one external `delete_client` call. -/
inductive ExtDelete where
  | ok
  | raised
  deriving Repr, DecidableEq

/-- Outcome of the `device:del:` branch: the local device row (`none`
once deleted), the node row afterwards, and whether the handler aborted
with the WG API error message. -/
structure DelResult where
  deviceRecord : Option DeviceR
  node : Option NodeR
  aborted : Bool
  deriving Repr, DecidableEq

/-- Embeds `_delete_peer_safe` (`src/app/handlers.py` lines 237-244): the
Enforcer's best-effort external deletion — any exception from
`delete_client` is swallowed, so the caller proceeds identically on `ok`
and on `raised`.  Returns whether the caller proceeds (always). -/
def delete_peer_safe (_clientId : Option String) (_ext : ExtDelete) : Bool :=
  true

/-- The `device:del:` branch of `on_callback` (`src/app/handlers.py`
lines 1340-1372) for an existing device `d`.  `nodeLookup` is
`session.get(Node, d.node_id)` when `d.node_id` is set; `ext` is the
outcome of `delete_client` if it is reached. -/
def deviceDel (d : DeviceR) (nodeLookup : Option NodeR) (ext : ExtDelete) :
    DelResult :=
  let node := if d.nodeId.isSome then nodeLookup else none
  match d.wgClientId, node with
  | some _, some n =>
    match ext with
    | .raised => { deviceRecord := some d, node := some n, aborted := true }
    | .ok =>
      { deviceRecord := none,
        node := some { n with load := max 0 (n.load - 1) },
        aborted := false }
  | _, _ => { deviceRecord := none, node := node, aborted := false }

/-- Runs `enforce_user_devices` together with the provisioning-node table: the
source function (`src/app/handlers.py` lines 250-303) never reads or
writes any `Node` row — its deletions go through `_delete_peer_safe` and
`session.delete(d)` only — so the node table passes through unchanged. -/
def enforce_user_devices_nodes (now : Int) (u : UserR)
    (baseDevs extraDevs : List DeviceR) (nodes : List NodeR) :
    EnforceResult × List NodeR :=
  (enforce_user_devices now u baseDevs extraDevs, nodes)

/-! ## Characterization of the Enforcer trim -/

/-- Lemma: `trimClassBase` keeps the first `baseQuota` entries when the window is
active and none otherwise. -/
lemma trimClassBase_fst (baseActive : Bool) (baseQuota : Nat)
    (devs : List DeviceR) :
    (trimClassBase baseActive baseQuota devs).1 =
      devs.take (if baseActive then baseQuota else 0) := by
  unfold trimClassBase
  cases baseActive with
  | false => simp
  | true =>
    simp only [Bool.not_true, Bool.false_eq_true, if_false, if_true]
    split
    · rfl
    · next h =>
        have ht : devs.take baseQuota = devs := List.take_of_length_le (by omega)
        simp [ht]

/-- Lemma: `trimClassBase` deletes the entries beyond the first `baseQuota` (all
of them when the window is inactive). -/
lemma trimClassBase_snd (baseActive : Bool) (baseQuota : Nat)
    (devs : List DeviceR) :
    (trimClassBase baseActive baseQuota devs).2 =
      devs.drop (if baseActive then baseQuota else 0) := by
  unfold trimClassBase
  cases baseActive with
  | false => simp
  | true =>
    simp only [Bool.not_true, Bool.false_eq_true, if_false, if_true]
    split
    · rfl
    · next h =>
        have hd : devs.drop baseQuota = [] := List.drop_eq_nil_of_le (by omega)
        simp [hd]

/-- Lemma: `trimClassExtra` keeps the first `extraActiveCount` entries. -/
lemma trimClassExtra_fst (extraActiveCount : Nat) (devs : List DeviceR) :
    (trimClassExtra extraActiveCount devs).1 =
      devs.take extraActiveCount := by
  unfold trimClassExtra
  by_cases hz : extraActiveCount ≤ 0
  · simp [hz, Nat.le_zero.mp hz]
  · simp only [hz, if_false]
    split
    · rfl
    · next h =>
        have ht : devs.take extraActiveCount = devs := List.take_of_length_le (by omega)
        simp [ht]

/-- Lemma: `trimClassExtra` deletes the entries beyond the first
`extraActiveCount`. -/
lemma trimClassExtra_snd (extraActiveCount : Nat) (devs : List DeviceR) :
    (trimClassExtra extraActiveCount devs).2 =
      devs.drop extraActiveCount := by
  unfold trimClassExtra
  by_cases hz : extraActiveCount ≤ 0
  · simp [hz, Nat.le_zero.mp hz]
  · simp only [hz, if_false]
    split
    · rfl
    · next h =>
        have hd : devs.drop extraActiveCount = [] := List.drop_eq_nil_of_le (by omega)
        simp [hd]

/-- The base devices an Enforcer run keeps are the first
`enforcerBaseQuota` entries of the query order. -/
lemma enforce_baseKept_eq (now : Int) (u : UserR)
    (baseDevs extraDevs : List DeviceR) :
    (enforce_user_devices now u baseDevs extraDevs).baseKept =
      baseDevs.take (enforcerBaseQuota now u) := by
  show (trimClassBase (hasBaseActive now u) _ baseDevs).1 = _
  rw [trimClassBase_fst]
  unfold enforcerBaseQuota
  cases hasBaseActive now u <;> simp

/-- The base devices an Enforcer run deletes are the entries beyond the
first `enforcerBaseQuota`. -/
lemma enforce_baseDeleted_eq (now : Int) (u : UserR)
    (baseDevs extraDevs : List DeviceR) :
    (enforce_user_devices now u baseDevs extraDevs).baseDeleted =
      baseDevs.drop (enforcerBaseQuota now u) := by
  show (trimClassBase (hasBaseActive now u) _ baseDevs).2 = _
  rw [trimClassBase_snd]
  unfold enforcerBaseQuota
  cases hasBaseActive now u <;> simp

/-- The extra devices an Enforcer run keeps are the first
`enforcerExtraQuota` entries of the query order. -/
lemma enforce_extraKept_eq (now : Int) (u : UserR)
    (baseDevs extraDevs : List DeviceR) :
    (enforce_user_devices now u baseDevs extraDevs).extraKept =
      extraDevs.take (enforcerExtraQuota now u) := by
  show (trimClassExtra _ extraDevs).1 = _
  rw [trimClassExtra_fst]
  rfl

/-- The extra devices an Enforcer run deletes are the entries beyond the
first `enforcerExtraQuota`. -/
lemma enforce_extraDeleted_eq (now : Int) (u : UserR)
    (baseDevs extraDevs : List DeviceR) :
    (enforce_user_devices now u baseDevs extraDevs).extraDeleted =
      extraDevs.drop (enforcerExtraQuota now u) := by
  show (trimClassExtra _ extraDevs).2 = _
  rw [trimClassExtra_snd]
  rfl

/-- Members of the kept prefix precede members of the deleted suffix in
creation time, for a creation-time-sorted input list. -/
lemma sorted_take_le_drop (l : List DeviceR) (q : Nat)
    (hs : List.Sorted (fun a b : DeviceR => a.createdAt ≤ b.createdAt) l) :
    ∀ x ∈ l.take q, ∀ y ∈ l.drop q, x.createdAt ≤ y.createdAt := by
  have h := hs
  rw [← List.take_append_drop q l] at h
  exact (List.pairwise_append.mp h).2.2

/-- C2: after every run of `enforce_user_devices` on an account at time
`now`, the non-addon devices kept number at most `enforcerBaseQuota now u`
(which is `0` when the base window is inactive), the addon devices kept
number at most `enforcerExtraQuota now u` (which is `0` when the addon
window is inactive), the devices retained in each class are exactly the
first quota-many in creation-time ascending order, and every retained
device is at least as old as every deleted one. -/
theorem C2_enforce_postcondition (now : Int) (u : UserR)
    (baseDevs extraDevs : List DeviceR)
    (hb : List.Sorted (fun a b : DeviceR => a.createdAt ≤ b.createdAt) baseDevs)
    (he : List.Sorted (fun a b : DeviceR => a.createdAt ≤ b.createdAt) extraDevs) :
    (enforce_user_devices now u baseDevs extraDevs).baseKept.length ≤
        enforcerBaseQuota now u ∧
    (enforce_user_devices now u baseDevs extraDevs).extraKept.length ≤
        enforcerExtraQuota now u ∧
    (enforce_user_devices now u baseDevs extraDevs).baseKept =
        baseDevs.take (enforcerBaseQuota now u) ∧
    (enforce_user_devices now u baseDevs extraDevs).extraKept =
        extraDevs.take (enforcerExtraQuota now u) ∧
    (∀ x ∈ (enforce_user_devices now u baseDevs extraDevs).baseKept,
      ∀ y ∈ (enforce_user_devices now u baseDevs extraDevs).baseDeleted,
        x.createdAt ≤ y.createdAt) ∧
    (∀ x ∈ (enforce_user_devices now u baseDevs extraDevs).extraKept,
      ∀ y ∈ (enforce_user_devices now u baseDevs extraDevs).extraDeleted,
        x.createdAt ≤ y.createdAt) := by
  refine ⟨?_, ?_, enforce_baseKept_eq now u baseDevs extraDevs,
    enforce_extraKept_eq now u baseDevs extraDevs, ?_, ?_⟩
  · rw [enforce_baseKept_eq]
    exact (List.length_take _ _).le.trans (Nat.min_le_left _ _)
  · rw [enforce_extraKept_eq]
    exact (List.length_take _ _).le.trans (Nat.min_le_left _ _)
  · rw [enforce_baseKept_eq, enforce_baseDeleted_eq]
    exact sorted_take_le_drop baseDevs _ hb
  · rw [enforce_extraKept_eq, enforce_extraDeleted_eq]
    exact sorted_take_le_drop extraDevs _ he

/-- Witness for C2 at a concrete account.  `now = 0`; both windows active
until time `100`; base quota 1, extra quota 1; two base devices (created
at 0 and at 5) and one extra device.  The run keeps the older base device
and the extra device. -/
theorem C2_enforce_postcondition_witness :
    (enforce_user_devices 0 ⟨0, none, some 100, 1, some 100, 1⟩
        [⟨1, some "a", some 1, false, 0⟩, ⟨2, some "b", some 1, false, 5⟩]
        [⟨3, some "c", none, true, 2⟩]).baseKept =
      [⟨1, some "a", some 1, false, 0⟩] ∧
    (enforce_user_devices 0 ⟨0, none, some 100, 1, some 100, 1⟩
        [⟨1, some "a", some 1, false, 0⟩, ⟨2, some "b", some 1, false, 5⟩]
        [⟨3, some "c", none, true, 2⟩]).extraKept =
      [⟨3, some "c", none, true, 2⟩] := by
  have h := C2_enforce_postcondition 0 ⟨0, none, some 100, 1, some 100, 1⟩
    [⟨1, some "a", some 1, false, 0⟩, ⟨2, some "b", some 1, false, 5⟩]
    [⟨3, some "c", none, true, 2⟩] (by decide) (by decide)
  refine ⟨h.2.2.1.trans ?_, h.2.2.2.1.trans ?_⟩ <;> decide

/-- C9: the Enforcer trim is idempotent — rerunning
`enforce_user_devices` at the same time `now`, on the account and the
device sets the first run left behind, deletes nothing. -/
theorem C9_enforce_idempotent (now : Int) (u : UserR)
    (baseDevs extraDevs : List DeviceR) :
    (enforce_user_devices now u
        (enforce_user_devices now u baseDevs extraDevs).baseKept
        (enforce_user_devices now u baseDevs extraDevs).extraKept).baseDeleted
      = [] ∧
    (enforce_user_devices now u
        (enforce_user_devices now u baseDevs extraDevs).baseKept
        (enforce_user_devices now u baseDevs extraDevs).extraKept).extraDeleted
      = [] := by
  constructor
  · rw [enforce_baseDeleted_eq, enforce_baseKept_eq]
    exact List.drop_eq_nil_of_le
      ((List.length_take _ _).le.trans (Nat.min_le_left _ _))
  · rw [enforce_extraDeleted_eq, enforce_extraKept_eq]
    exact List.drop_eq_nil_of_le
      ((List.length_take _ _).le.trans (Nat.min_le_left _ _))

/-- C3 counterexample: an account whose base window is absent (hence
inactive) but whose `device_quota` is 2 still gets total quota 2 from
`User.total_quota` — the spec formula `baseQuota(now) + addonQuota(now)`
gives 0. -/
theorem C3_counterexample :
    total_quota 0 ⟨0, none, none, 2, none, 0⟩ = 2 ∧
    totalQuotaSpec 0 ⟨0, none, none, 2, none, 0⟩ = 0 := by
  decide

/-- C3 amended: `User.total_quota` gates only the addon term on its
window; the base counter `device_quota` contributes unconditionally, so
the computed total exceeds the spec formula by `device_quota` exactly when
the base window is inactive. -/
theorem C3_total_quota_base_ungated (now : Int) (u : UserR) :
    total_quota now u =
      totalQuotaSpec now u +
        (if hasBaseActive now u then 0 else u.deviceQuota) := by
  unfold total_quota totalQuotaSpec
  cases hasBaseActive now u <;> cases hasExtraActive now u <;>
    simp [Nat.add_comm]

/-- The source's extend-anchor idiom `x = a or now; if x < now: x = now`
is the later of `now` and the stored expiry. -/
lemma anchor_eq_max (now c : Int) :
    (if c < now then now else c) = max now c := by
  rcases lt_or_le c now with h | h
  · rw [if_pos h, max_eq_left h.le]
  · rw [if_neg (not_lt.mpr h), max_eq_right h]

/-- C4: settling a succeeded EXTRA_DEVICE (add-on) payment sets
`extra_devices_until` to the later of `now` and the current expiry plus
exactly 30 days, and increments `extra_devices_count` by exactly 1;
nothing else on the account changes and the referrer row is untouched. -/
theorem C4_addon_settlement (percent : Nat) (now : Int)
    (getTariff : Nat → Option TariffR) (p : PaymentR) (u : UserR)
    (refUser : Option UserR) (hp : p.purpose = "EXTRA_DEVICE") :
    applySuccessfulPayment percent now getTariff p u refUser =
      some ({ u with
        extraDevicesUntil :=
          some (max now (u.extraDevicesUntil.getD now) + 30 * secondsPerDay),
        extraDevicesCount := u.extraDevicesCount + 1 }, refUser) := by
  simp [applySuccessfulPayment, hp, anchor_eq_max]

/-- Witness for C4, the spec's scenario: `now = 0`, add-on window active
for another 10 days, one add-on slot; settling a second add-on purchase
moves the expiry to day 40 (anchored on the existing window, not on
`now`) and the slot count to 2. -/
theorem C4_addon_settlement_witness :
    applySuccessfulPayment 10 0 (fun _ => none) ⟨"EXTRA_DEVICE", 10000, none⟩
        ⟨0, none, none, 0, some (10 * secondsPerDay), 1⟩ none =
      some (⟨0, none, none, 0, some (40 * secondsPerDay), 2⟩, none) := by
  have h := C4_addon_settlement 10 0 (fun _ => none)
    ⟨"EXTRA_DEVICE", 10000, none⟩
    ⟨0, none, none, 0, some (10 * secondsPerDay), 1⟩ none rfl
  rw [h]
  decide

/-- C5 counterexample: a TARIFF payment of 0.25 currency units (25 cents
— exactly representable as a binary float) for a referred account, with
`referral_bonus_percent = 10`: the exact bonus is 2.5 cents; the code's
`Decimal.quantize` default (half-even) credits 2 cents, while the claimed
round-half-up would credit 3. -/
theorem C5_counterexample :
    (applySuccessfulPayment 10 0 (fun _ => some ⟨30, 2⟩) ⟨"TARIFF", 25, some 1⟩
        ⟨0, some 7, none, 0, none, 0⟩ (some ⟨0, none, none, 0, none, 0⟩)) =
      some (⟨0, some 7, some (30 * secondsPerDay), 2, none, 0⟩,
        some ⟨2, none, none, 0, none, 0⟩) ∧
    roundHalfUpDiv (25 * 10) 100 = 3 := by
  constructor
  · decide
  · decide

/-- C5 amended: settling a succeeded TARIFF payment for a referred
account credits the referrer's balance by exactly
`amount * referral_bonus_percent / 100` rounded to the currency's minor
unit with round-half-even (the `Decimal` default), and extends the
payer's subscription from the later of `now` and the current expiry by
the tariff's day count. -/
theorem C5_referral_bonus_half_even (percent : Nat) (now : Int)
    (getTariff : Nat → Option TariffR) (p : PaymentR) (u : UserR)
    (r : UserR) (tid rid : Nat) (t : TariffR)
    (hp : p.purpose = "TARIFF") (htid : p.tariffId = some tid)
    (ht : getTariff tid = some t) (href : u.referredBy = some rid) :
    applySuccessfulPayment percent now getTariff p u (some r) =
      some ({ u with
          subscriptionUntil := some (max now (u.subscriptionUntil.getD now)
            + (t.days : Int) * secondsPerDay),
          deviceQuota := t.maxDevices },
        some { r with
          balance := r.balance +
            (referralBonusCents p.amountCents percent : Int) }) := by
  simp [applySuccessfulPayment, hp, htid, ht, href, anchor_eq_max]

/-- Witness for C5 amended, at the counterexample's input: 25-cent TARIFF
payment, 10 percent bonus — the referrer is credited
`roundHalfEvenDiv 250 100 = 2` cents. -/
theorem C5_referral_bonus_half_even_witness :
    applySuccessfulPayment 10 0 (fun _ => some ⟨7, 3⟩) ⟨"TARIFF", 25, some 2⟩
        ⟨0, some 9, none, 0, none, 0⟩ (some ⟨100, none, none, 0, none, 0⟩) =
      some (⟨0, some 9, some (7 * secondsPerDay), 3, none, 0⟩,
        some ⟨102, none, none, 0, none, 0⟩) := by
  have h := C5_referral_bonus_half_even 10 0 (fun _ => some ⟨7, 3⟩)
    ⟨"TARIFF", 25, some 2⟩ ⟨0, some 9, none, 0, none, 0⟩
    ⟨100, none, none, 0, none, 0⟩ 2 9 ⟨7, 3⟩ rfl rfl rfl rfl
  rw [h]
  decide

/-- C8 counterexample: a succeeded payment whose purpose is the undefined
value `"WEIRD"` is settled without any effect and without any error — the
payer and referrer rows come back unchanged. -/
theorem C8_counterexample :
    applySuccessfulPayment 10 0 (fun _ => none) ⟨"WEIRD", 100, none⟩
        ⟨5, none, none, 1, none, 0⟩ none =
      some (⟨5, none, none, 1, none, 0⟩, none) := by
  decide

/-- C8 amended: `_apply_successful_payment` silently ignores a payment
whose purpose is none of TARIFF, TOPUP, EXTRA_DEVICE — its `if/elif`
chain falls through, leaving the account unchanged and signalling no
error. -/
theorem C8_unknown_purpose_ignored (percent : Nat) (now : Int)
    (getTariff : Nat → Option TariffR) (p : PaymentR) (u : UserR)
    (refUser : Option UserR) (h1 : p.purpose ≠ "TARIFF")
    (h2 : p.purpose ≠ "TOPUP") (h3 : p.purpose ≠ "EXTRA_DEVICE") :
    applySuccessfulPayment percent now getTariff p u refUser =
      some (u, refUser) := by
  simp [applySuccessfulPayment, h1, h2, h3]

/-- Witness for C8 amended at the purpose `"REFUND"`. -/
theorem C8_unknown_purpose_ignored_witness :
    applySuccessfulPayment 10 0 (fun _ => none) ⟨"REFUND", 100, some 1⟩
        ⟨5, some 3, some 7, 1, some 7, 1⟩ none =
      some (⟨5, some 3, some 7, 1, some 7, 1⟩, none) :=
  C8_unknown_purpose_ignored 10 0 (fun _ => none) ⟨"REFUND", 100, some 1⟩
    ⟨5, some 3, some 7, 1, some 7, 1⟩ none
    (by decide) (by decide) (by decide)

/-- C1 counterexample: a legal interleaving in which the sweep selects a
pending payment, the watcher then observes `succeeded` from the gateway
and commits the status write first, and the sweep finally compares the
gateway against its stale snapshot — settlement
(`_apply_successful_payment`) runs twice for the one transition into
`succeeded`. -/
theorem C1_counterexample :
    watcherSweepRace = ⟨"succeeded", 2⟩ := by
  decide

/-- C1 amended: only the sweep is driven by a status change — once the
stored status is `succeeded` and its snapshot is fresh, a sweep observing
`succeeded` again does nothing; the watcher, however, applies settlement
whenever the gateway reports `succeeded`, with no comparison against the
stored status, so a watcher racing the sweep on one payment can settle it
a second time. -/
theorem C1_sweep_change_driven_watcher_not (s : PayState)
    (h : s.status = "succeeded") :
    sweepObserve "succeeded" s.status s = s ∧
    (watcherObserve "succeeded" s).applyCount = s.applyCount + 1 := by
  constructor
  · simp [sweepObserve, h]
  · simp [watcherObserve]

/-- Witness for C1 amended at the already-settled row. -/
theorem C1_sweep_change_driven_watcher_not_witness :
    sweepObserve "succeeded" (PayState.status ⟨"succeeded", 1⟩)
        ⟨"succeeded", 1⟩ = ⟨"succeeded", 1⟩ ∧
    (watcherObserve "succeeded" ⟨"succeeded", 1⟩).applyCount = 1 + 1 :=
  C1_sweep_change_driven_watcher_not ⟨"succeeded", 1⟩ rfl

/-- C7: while the buyer's base subscription window is active, the
`tariff:buy` flow rejects the purchase (the spec's `ValidationError`)
before the gateway is invoked: no gateway payment is created, no payment
row is persisted, and the account row is returned unchanged — whatever
the gateway would have answered. -/
theorem C7_active_subscription_purchase_rejected (now : Int) (t : TariffR)
    (tid priceCents : Nat) (u : UserR) (gw : Except Unit GatewayPay)
    (h : hasBaseActive now u = true) :
    tariffBuy now (some (t, true)) tid priceCents u gw =
      { gatewayCalled := false, payment := none, user := u,
        rejected := some .validationActiveSubscription } := by
  simp [tariffBuy, h]

/-- Witness for C7: a buyer subscribed until time 100 at `now = 0`,
with a gateway that would have succeeded. -/
theorem C7_active_subscription_purchase_rejected_witness :
    tariffBuy 0 (some (⟨30, 2⟩, true)) 1 30000
        ⟨0, none, some 100, 2, none, 0⟩
        (.ok ⟨"pay-1", some "https://pay"⟩) =
      { gatewayCalled := false, payment := none,
        user := ⟨0, none, some 100, 2, none, 0⟩,
        rejected := some .validationActiveSubscription } :=
  C7_active_subscription_purchase_rejected 0 ⟨30, 2⟩ 1 30000
    ⟨0, none, some 100, 2, none, 0⟩ (.ok ⟨"pay-1", some "https://pay"⟩)
    (by decide)

/-- C10: user-initiated deletion (`device:del`) is external-first and
atomic on error.  For a device with a node reference and a peer id:
if the external `delete_client` raises, the handler aborts with the local
row still present and the node's load unchanged; if it succeeds, the row
is deleted and the load is decremented saturating at zero.  A device with
no peer id, or no node, is deleted locally regardless of the external
outcome. -/
theorem C10_device_del_atomic (d : DeviceR) (n : NodeR)
    (hw : d.wgClientId.isSome = true) (hn : d.nodeId.isSome = true) :
    deviceDel d (some n) .raised =
      { deviceRecord := some d, node := some n, aborted := true } ∧
    deviceDel d (some n) .ok =
      { deviceRecord := none,
        node := some { n with load := max 0 (n.load - 1) },
        aborted := false } ∧
    (∀ ext, deviceDel { d with wgClientId := none } (some n) ext =
      { deviceRecord := none, node := some n, aborted := false }) ∧
    (∀ ext lookup, deviceDel { d with nodeId := none } lookup ext =
      { deviceRecord := none, node := none, aborted := false }) := by
  obtain ⟨cid, hcid⟩ := Option.isSome_iff_exists.mp hw
  refine ⟨?_, ?_, ?_, ?_⟩
  · simp [deviceDel, hcid, hn]
  · simp [deviceDel, hcid, hn]
  · intro ext
    cases ext <;> simp [deviceDel, hn]
  · intro ext lookup
    cases ext <;> simp [deviceDel, hcid]

/-- Witness for C10 on a device with peer id and node (load 1). -/
theorem C10_device_del_atomic_witness :
    deviceDel ⟨1, some "peer", some 4, false, 0⟩ (some ⟨4, true, 1, 100⟩)
        .raised =
      { deviceRecord := some ⟨1, some "peer", some 4, false, 0⟩,
        node := some ⟨4, true, 1, 100⟩, aborted := true } ∧
    deviceDel ⟨1, some "peer", some 4, false, 0⟩ (some ⟨4, true, 1, 100⟩)
        .ok =
      { deviceRecord := none, node := some ⟨4, true, 0, 100⟩,
        aborted := false } := by
  have h := C10_device_del_atomic ⟨1, some "peer", some 4, false, 0⟩
    ⟨4, true, 1, 100⟩ (by decide) (by decide)
  refine ⟨h.1, h.2.1.trans ?_⟩
  decide

/-- C6: the failing input for the claimed node-load invariant.  Node 1
has `load = 1` from its single provisioned base device; the owner's base
window is expired (`subscription_until = -1 < now = 0`), so the Enforcer
trim deletes the device — but `enforce_user_devices` never touches any
`Node` row, so the load stays 1 instead of being decremented to 0. -/
theorem C6_enforcer_trim_skips_load_decrement :
    enforce_user_devices_nodes 0 ⟨0, none, some (-1), 1, none, 0⟩
        [⟨1, some "peer-1", some 1, false, 0⟩] []
        [⟨1, true, 1, 100⟩] =
      (⟨[], [⟨1, some "peer-1", some 1, false, 0⟩], [], []⟩,
        [⟨1, true, 1, 100⟩]) := by
  decide

end VpnBot
